import Mathlib

/-!
Verification of the conversational-agent orchestration core of the
TFG-Chatbot repository (backend/logic/graph.py, backend/logic/testGraph.py,
backend/logic/tools/tools.py, backend/api.py) against its specification.

The Python code is shallowly embedded: pure fragments become Lean
functions; external effects (the language-model endpoint, the RAG HTTP
service, the MongoDB document store) are passed in as explicit outcome
parameters, so that every path of the code — including its exception
handlers — is an explicit branch of a total Lean function.
-/

namespace Chatbot

/-! ## Data model (backend/logic/models.py) -/

/-- `Question` from models.py: `{question_text, difficulty}`. -/
structure Question where
  question_text : String
  difficulty : Option String
deriving Repr, DecidableEq

/-- `Answer` from models.py: an option of a multiple-choice question. -/
structure Answer where
  answer_text : String
  is_correct : Bool
deriving Repr, DecidableEq

/-- `MultipleChoiceTest` from models.py: a question plus its options
(empty options list for free-text review questions). -/
structure MultipleChoiceTest where
  question : Question
  options : List Answer
deriving Repr, DecidableEq

/-- The arguments dictionary of a tool call.  The Python code passes a JSON
dict; we model it as a record of the optional fields the embedded nodes
actually read (`topic`, `num_questions`, `difficulty` for `generate_test`;
`asignatura`, `key` for `get_guia`; `query` for the search tools).
`none` models an absent key. -/
structure ToolArgs where
  topic : String := ""
  num_questions : Option Nat := none
  difficulty : Option String := none
  asignatura : Option String := none
  key : Option String := none
  query : String := ""
deriving Repr, DecidableEq

/-- A tool call attached to an assistant message:
`{tool_name, arguments, call_id}`. -/
structure ToolCall where
  name : String
  id : String
  args : ToolArgs := {}
deriving Repr, DecidableEq

/-- Message roles (LangChain `HumanMessage` / `AIMessage` / `ToolMessage`). -/
inductive Role where
  | human
  | ai
  | tool
deriving Repr, DecidableEq

/-- A conversation message.  `tool_calls` is empty for human and tool
messages (in LangChain those classes carry no tool-call attribute);
`tool_call_id` is meaningful only for tool messages. -/
structure Msg where
  role : Role
  content : String
  tool_calls : List ToolCall := []
  tool_call_id : String := ""
deriving Repr, DecidableEq

/-- `isPrefixL needle l`: `needle` is a prefix of `l` (on character
lists, by structural recursion so the kernel can evaluate it). -/
def isPrefixL : List Char → List Char → Bool
  | [], _ => true
  | _ :: _, [] => false
  | a :: as, b :: bs => a == b && isPrefixL as bs

/-- `containsL needle hay`: `needle` occurs as a contiguous run of
`hay`. -/
def containsL (needle : List Char) : List Char → Bool
  | [] => needle.isEmpty
  | c :: cs => isPrefixL needle (c :: cs) || containsL needle cs

/-- Python substring containment (`needle in hay`). -/
def containsSub (hay needle : String) : Bool :=
  containsL needle.data hay.data

/-- Python `str.upper()` (character-wise uppercasing). -/
def upperS (s : String) : String :=
  ⟨s.data.map Char.toUpper⟩

/-- Python `str.strip()`: drop whitespace from both ends. -/
def stripL (l : List Char) : List Char :=
  ((l.dropWhile Char.isWhitespace).reverse.dropWhile Char.isWhitespace).reverse

/-- Fuel-driven worker for `splitOnL`; the fuel starts above the text
length, which is enough because every step consumes at least one
character. -/
def splitOnFuel (needle : List Char) :
    Nat → List Char → List Char → List (List Char)
  | 0, _, acc => [acc.reverse]
  | _ + 1, [], acc => [acc.reverse]
  | fuel + 1, c :: cs, acc =>
    if isPrefixL needle (c :: cs) then
      acc.reverse ::
        splitOnFuel needle fuel (cs.drop (needle.length - 1)) []
    else splitOnFuel needle fuel cs (c :: acc)

/-- Python `str.split(sep)` for a non-empty separator: the chunks of the
text between consecutive separator occurrences. -/
def splitOnL (needle hay : List Char) : List (List Char) :=
  splitOnFuel needle (hay.length + 1) hay []

/-! ## Tools (backend/logic/tools/tools.py)

Each tool's body is wrapped in a `try/except` in the source; the outcome of
the external effect (web search, MongoDB lookup, RAG HTTP call, LLM call)
is passed in as an explicit parameter whose error constructors correspond
to the `except` branches, so the embedded tool is a total function. -/

/-- `web_search`: returns the search results, or on any exception the
string `"Error performing web search: " ++ e`.  The parameter is the
outcome of `DuckDuckGoSearchAPIWrapper().run(query)`. -/
def web_search_tool (outcome : Except String String) : String :=
  match outcome with
  | .ok results => results
  | .error e => "Error performing web search: " ++ e

/-- Outcome of the MongoDB interaction inside `get_guia`:
an exception anywhere in the body, a missing document, or a found document
(modelled by its rendered summary JSON and a dotted-path key lookup
function, `none` meaning the key is not present). -/
inductive GuiaLookup where
  | exc (e : String)
  | missing
  | doc (summaryJson : String) (keyVals : String → Option String)

/-- `get_guia` tool from tools.py.  Branch order follows the source:
falsy `asignatura` short-circuits, then the lookup, then the optional
dotted-path key navigation, else the summary. -/
def get_guia_tool (outcome : GuiaLookup) (asignatura : Option String)
    (key : Option String) : String :=
  match asignatura with
  | none => "No guia found for subject"
  | some a =>
    match outcome with
    | .exc e => "Error retrieving guia: " ++ e
    | .missing => "No guia found for subject: " ++ a
    | .doc summaryJson keyVals =>
      match key with
      | none => summaryJson
      | some k =>
        match keyVals k with
        | none =>
          "Key \x27" ++ k ++ "\x27 not present in guia for subject " ++ a
        | some v => v

/-- A normalized RAG search result (`_normalize_single_result` output):
`{content, metadata, score}`.  Metadata dictionaries are modelled as
association lists. -/
structure RagResult where
  content : String
  metadata : List (String × String)
deriving Repr, DecidableEq

/-- The successful payload of the external RAG service, already passed
through `_normalize_rag_results` (the untyped JSON shape-normalization is
abstracted: the embedded results are the normalized triples). -/
structure RagData where
  query : Option String := none
  total_results : Option Nat := none
  results : List RagResult := []

/-- Outcome of the HTTP request inside `rag_search`: the four `except`
clauses of the source (timeout, connection error, other request error,
any other exception) or a successful response. -/
inductive RagOutcome where
  | timeout (e : String)
  | connError (e : String)
  | reqError (e : String)
  | otherExc (e : String)
  | ok (data : RagData)

/-- The structured return value of `rag_search`:
`{"ok": True, query, total_results, results}` or `{"ok": False, "error"}`. -/
inductive RagReturn where
  | success (query : String) (total_results : Nat) (results : List RagResult)
  | failure (error : String)

/-- `rag_search` tool from tools.py: on success returns the normalized
structured dict; each exception class is converted into an
`{"ok": False, "error": ...}` payload with the source's message prefix. -/
def rag_search_tool (query : String) (outcome : RagOutcome) : RagReturn :=
  match outcome with
  | .timeout e => .failure ("RAG service timeout: " ++ e)
  | .connError e => .failure ("Cannot connect to RAG service: " ++ e)
  | .reqError e => .failure ("Error contacting RAG service: " ++ e)
  | .otherExc e => .failure ("Unexpected error: " ++ e)
  | .ok d =>
    .success (d.query.getD query) (d.total_results.getD d.results.length)
      d.results

/-- One parsed question datum from the LLM's JSON array in
`generate_test` (`_parse_llm_questions_response` result entries).
`none` models an absent key, read with `.get` defaults in the source. -/
structure QData where
  question_text : Option String := none
  difficulty : Option String := none
deriving Repr, DecidableEq

/-- `_create_test_objects` from tools.py: truncates the parsed data to
`num_questions` and builds `MultipleChoiceTest` objects with empty
options (free-form answers). -/
def _create_test_objects (questions_data : List QData) (num_questions : Nat)
    (difficulty : String) : List MultipleChoiceTest :=
  (questions_data.take num_questions).map fun q =>
    { question :=
        { question_text := q.question_text.getD "Pregunta sin texto",
          difficulty := some (q.difficulty.getD difficulty) },
      options := [] }

/-- Outcome of the LLM call + JSON extraction inside `generate_test`:
`exc` = the LLM call or `json.loads` raised (the outer `except` branch);
`noJsonArray` = the response contained no `[...]` match (the
`_parse_llm_questions_response` fallback); `parsed` = a JSON array was
parsed into question data. -/
inductive GenOutcome where
  | exc
  | noJsonArray
  | parsed (data : List QData)
deriving DecidableEq

/-- The single fallback question `generate_test` returns when its body
raises. -/
def fallbackQuestion (topic : String) : MultipleChoiceTest :=
  { question :=
      { question_text := "¿Qué has aprendido sobre " ++ topic ++ "?",
        difficulty := some "medium" },
    options := [] }

/-- `generate_test` tool from tools.py: generates up to `num_questions`
review questions; on a non-parsing response falls back to
`num_questions` template questions; on any exception returns exactly one
fallback question about the topic. -/
def generate_test_tool (topic : String) (num_questions : Nat)
    (difficulty : Option String) (outcome : GenOutcome) :
    List MultipleChoiceTest :=
  let diff := difficulty.getD "medium"
  match outcome with
  | .exc => [fallbackQuestion topic]
  | .noJsonArray =>
    _create_test_objects
      ((List.range num_questions).map fun i =>
        { question_text :=
            some ("Pregunta " ++ toString (i + 1) ++ " sobre " ++ topic),
          difficulty := some diff })
      num_questions diff
  | .parsed data => _create_test_objects data num_questions diff

/-! ## Session state (graph.py `SubjectState` merged with
testGraph.py `TestSessionState`)

The test subgraph shares its state keys with the parent graph, so both are
embedded as a single record.  The test fields are seeded by
`initialize_test`; `asignatura` and `context` belong to the parent. -/

structure SessionState where
  messages : List Msg := []
  asignatura : Option String := none
  context : List (List (String × String)) := []
  topic : String := ""
  num_questions : Nat := 0
  difficulty : Option String := none
  questions : List MultipleChoiceTest := []
  current_question_index : Nat := 0
  user_answers : List String := []
  feedback_history : List String := []
  scores : List Bool := []
deriving Repr, DecidableEq

/-- The tool calls of the last message of a state (empty when there is no
message or the last message carries none), as read by every tool node via
`getattr(last_message, "tool_calls", [])`. -/
def lastToolCalls (s : SessionState) : List ToolCall :=
  match s.messages.getLast? with
  | none => []
  | some m => m.tool_calls

/-! ## Parent graph nodes (backend/logic/graph.py) -/

/-- The routing decision of `GraphAgent.should_continue`: the name of the
next tool node, or the terminal `END` signal. -/
inductive Route where
  | tool (name : String)
  | terminal
deriving Repr, DecidableEq

/-- `GraphAgent.should_continue` from graph.py: reads the last message; if
it carries tool calls, returns the first call's declared name, otherwise
the terminal signal.  (The Python code indexes `messages[-1]`; the graph
never reaches this function with an empty message list, and the `none`
branch is unreachable there.) -/
def should_continue (messages : List Msg) : Route :=
  match messages.getLast? with
  | none => .terminal
  | some m =>
    match m.tool_calls with
    | [] => .terminal
    | tc :: _ => .tool tc.name

/-- The arguments `GraphAgent.get_guia` passes to the `get_guia` tool:
the pending tool call's arguments with `args["asignatura"]` assigned the
session's subject (`state.get("asignatura")`) — the source performs this
assignment unconditionally, before invoking the tool.  Returns `none`
when no tool call is pending (the node then returns the state
unchanged). -/
def guiaInvokedArgs (s : SessionState) : Option ToolArgs :=
  match lastToolCalls s with
  | [] => none
  | tc :: _ => some { tc.args with asignatura := s.asignatura }

/-- `GraphAgent.get_guia` from graph.py: extracts the pending tool call,
overwrites its `asignatura` argument with the session's subject, invokes
the tool (passed in as `invoke`), and appends the result as a tool
message tagged with the call's identifier. -/
def get_guia_node (invoke : ToolArgs → String) (s : SessionState) :
    SessionState :=
  match lastToolCalls s with
  | [] => s
  | tc :: _ =>
    let args := { tc.args with asignatura := s.asignatura }
    { s with
      messages := s.messages ++
        [{ role := .tool, content := invoke args, tool_call_id := tc.id }] }

/-- `GraphAgent.rag_search` from graph.py: extracts the pending tool
call, invokes the RAG tool (its normalized `results` list is the
`results` parameter), builds the `"This is chunks of context:"` message,
and appends each result's metadata dictionary to the state's `context`
accumulator, in result order. -/
def rag_search_node (results : List RagResult) (s : SessionState) :
    SessionState :=
  match lastToolCalls s with
  | [] => s
  | tc :: _ =>
    let content := results.foldl
      (fun acc r => acc ++ "\n- " ++ r.content ++ "\n")
      "This is chunks of context:\n"
    { s with
      context := s.context ++ results.map (·.metadata),
      messages := s.messages ++
        [{ role := .tool, content := content, tool_call_id := tc.id }] }

/-- The state seeding performed by `GraphAgent.call_agent` at the start of
each `advance` turn: the user's query is appended to the durable message
history, `asignatura` is set for the turn and `context` is reset to the
empty list (the input dict `{"messages": [HumanMessage(query)],
"asignatura": ..., "context": []}` is merged with the checkpoint: the
`messages` key has an append reducer, the others overwrite). -/
def call_agent_seed (query : String) (asignatura : Option String)
    (prev : SessionState) : SessionState :=
  { prev with
    messages := prev.messages ++ [{ role := .human, content := query }],
    asignatura := asignatura,
    context := [] }

/-! ## Test-session subgraph nodes (backend/logic/testGraph.py)

`answer_question` contains the `interrupt(...)` suspension point, so it is
embedded in three pieces: the interrupt payload it constructs (none on the
defensive error branch), the error-branch update, and the post-resume
update, which receives the user's answer as the interrupt's return value.
The LLM used for answer evaluation is an explicit `LLMOutcome`
parameter. -/

/-- The text of a question as extracted by `present_question` /
`answer_question`: the stored questions are `MultipleChoiceTest` objects,
so the extraction takes `question.question.question_text` (the source's
`dict`/`str` fallback branches apply only to untyped states and are not
reachable for the typed question list produced by `generate_test`). -/
def questionText (q : MultipleChoiceTest) : String :=
  q.question.question_text

/-- `TestSessionGraph.initialize_test`: reads the pending tool call's
arguments from the last message, generates the whole question list once
via the `generate_test` tool (the `generate` parameter), and seeds the
test fields with index 0 and empty accumulator lists.  With no pending
tool call the node returns `{}` (state unchanged). -/
def initialize_test (generate : ToolArgs → List MultipleChoiceTest)
    (s : SessionState) : SessionState :=
  match lastToolCalls s with
  | [] => s
  | tc :: _ =>
    let args := tc.args
    { s with
      topic := args.topic,
      num_questions := args.num_questions.getD 5,
      difficulty := args.difficulty,
      questions := generate args,
      current_question_index := 0,
      user_answers := [],
      feedback_history := [],
      scores := [] }

/-- `TestSessionGraph.present_question`: appends the current question's
text as an assistant message; if the question list is empty or the index
is out of range it returns `{}` (state unchanged) and lets the router
handle the corrupted session. -/
def present_question (s : SessionState) : SessionState :=
  if h : s.current_question_index < s.questions.length then
    { s with
      messages := s.messages ++
        [{ role := .ai,
           content :=
             questionText (s.questions.get ⟨s.current_question_index, h⟩) }] }
  else s

/-- `InterruptInfo`: the payload `answer_question` passes to
`interrupt(...)` and api.py surfaces to the caller. -/
structure InterruptPayload where
  action : String
  question_num : Nat
  total_questions : Nat
  question_text : String
deriving Repr, DecidableEq

/-- The interrupt payload constructed by
`TestSessionGraph.answer_question` when the current index is in range:
`{action: "answer_question", question_num: idx+1, total_questions,
question_text}`.  (`total_questions` reads
`state.get("num_questions", len(questions))`; `num_questions` is always
present in the embedded state record, matching every state produced by
`initialize_test`.)  `none` on the defensive error branch. -/
def answer_interrupt_payload (s : SessionState) : Option InterruptPayload :=
  if h : s.current_question_index < s.questions.length then
    some
      { action := "answer_question",
        question_num := s.current_question_index + 1,
        total_questions := s.num_questions,
        question_text :=
          questionText (s.questions.get ⟨s.current_question_index, h⟩) }
  else none

/-- The defensive error branch of `TestSessionGraph.answer_question`
(empty question list or out-of-range index): forces the session to end by
setting the index to `num_questions` and appending an error message; no
interrupt is raised and the accumulator lists are untouched. -/
def answer_question_error (s : SessionState) : SessionState :=
  { s with
    current_question_index := s.num_questions,
    messages := s.messages ++
      [{ role := .ai,
         content := "⚠️ Error en la sesión de preguntas. Finalizando..." }] }

/-- The outcome of the evaluation LLM call inside
`evaluate_answer_with_llm`: either the call raised, or it returned a
response with the given text content. -/
inductive LLMOutcome where
  | exc
  | response (text : String)
deriving DecidableEq

/-- `TestSessionGraph.evaluate_answer_with_llm`, deterministic core:
given the LLM outcome and the user's answer, returns
`(feedback, is_correct)`.  On a response: `is_correct` holds exactly when
the uppercased response contains `"CORRECT: YES"`, and the feedback is
the text after the first `"FEEDBACK:"` (stripped) when that marker is
present, otherwise the whole response.  On an exception: the generic
encouraging fallback with `is_correct = True`. -/
def evaluate_answer_with_llm (outcome : LLMOutcome) (user_answer : String) :
    String × Bool :=
  match outcome with
  | .exc =>
    ("Recibí tu respuesta: \x27" ++ user_answer ++ "\x27. ¡Continuemos!",
     true)
  | .response t =>
    let is_correct := containsSub (upperS t) "CORRECT: YES"
    let feedback :=
      if containsSub t "FEEDBACK:" then
        -- `response_text.split("FEEDBACK:")[1].strip()`; the guard above
        -- guarantees index 1 exists, so the `getD` default is unreachable.
        String.mk
          (stripL (((splitOnL "FEEDBACK:".data t.data).get? 1).getD []))
      else t
    (feedback, is_correct)

/-- The post-resume part of `TestSessionGraph.answer_question`: evaluates
the answer, appends the `(answer, feedback, score)` triple to the
accumulators, increments the index, and appends the user's literal answer
plus the formatted feedback to the durable message history. -/
def answer_question_resume (outcome : LLMOutcome) (user_answer : String)
    (s : SessionState) : SessionState :=
  let fb := evaluate_answer_with_llm outcome user_answer
  let feedback := fb.1
  let is_correct := fb.2
  let updated_index := s.current_question_index + 1
  let emoji := if is_correct then "✅" else "❌"
  let feedback_msg :=
    emoji ++ " " ++ feedback ++ "\n\nProgreso: " ++ toString updated_index
      ++ "/" ++ toString s.num_questions ++ " completadas"
  { s with
    user_answers := s.user_answers ++ [user_answer],
    feedback_history := s.feedback_history ++ [feedback],
    scores := s.scores ++ [is_correct],
    current_question_index := updated_index,
    messages := s.messages ++
      [{ role := .human, content := user_answer },
       { role := .ai, content := feedback_msg }] }

/-- `TestSessionGraph.test_router`: `true` = `"continue"` (loop back to
`present_question`), `false` = `"finalize"`. -/
def test_router (s : SessionState) : Bool :=
  s.current_question_index < s.num_questions

/-- `sum(scores)` over Python booleans: the number of `True` entries. -/
def countTrue (scores : List Bool) : Nat :=
  (scores.filter id).length

/-- The percentage computed by `finalize_test`:
`(score / total) * 100 if total > 0 else 0`, in exact rational
arithmetic (the source computes it in floating point; for the small
integer scores involved the formula is the same). -/
def percentageOf (score total : Nat) : ℚ :=
  if 0 < total then ((score : ℚ) / (total : ℚ)) * 100 else 0

/-- Python's `"{:.0f}"` formatting of the (exact-rational idealization of
the) percentage: round to the nearest integer, ties to even. -/
def formatF0 (q : ℚ) : String :=
  let fl : ℤ := Int.fdiv q.num (q.den : ℤ)
  let frac : ℚ := q - (fl : ℚ)
  let r : ℤ :=
    if (1 : ℚ) / 2 < frac then fl + 1
    else if frac < (1 : ℚ) / 2 then fl
    else if fl % 2 = 0 then fl else fl + 1
  toString r

/-- The summary string built by `finalize_test`. -/
def summaryText (score total : Nat) (topic : String) : String :=
  "🎓 ¡Sesión de repaso completada!\n\nPuntuación: " ++ toString score
    ++ "/" ++ toString total ++ " ("
    ++ formatF0 (percentageOf score total)
    ++ "%)\n\n¡Excelente trabajo repasando " ++ topic ++ "!"

/-- The tool-call identifier `finalize_test` tags its summary with: the
first tool call of the most recent message that carries tool calls
(`next(m for m in reversed(messages) if m.tool_calls)`), or `"unknown"`
when no message carries one. -/
def lastToolCallId (messages : List Msg) : String :=
  match messages.reverse.find? (fun m => !m.tool_calls.isEmpty) with
  | some m =>
    match m.tool_calls with
    | tc :: _ => tc.id
    | [] => "unknown"
  | none => "unknown"

/-- `TestSessionGraph.finalize_test`: computes the score and percentage
and appends exactly one summary tool message tagged with the identifier
of the most recent tool-calling message.  (`total` reads
`state.get("num_questions", len(scores))`; the field is always present in
the embedded record.) -/
def finalize_test (s : SessionState) : SessionState :=
  let score := countTrue s.scores
  let total := s.num_questions
  { s with
    messages := s.messages ++
      [{ role := .tool,
         content := summaryText score total s.topic,
         tool_call_id := lastToolCallId s.messages }] }

/-! ## Subgraph execution (testGraph.py `build_test_subgraph`
plus api.py `chat` / `resume_chat`)

The subgraph wiring is
`initialize_test → present_question → answer_question
→ (router: continue → present_question | finalize → END)`.
`runTestLoop` drives it from `present_question` on: `answers` is the
queue of values the caller will supply through successive `resume` calls;
when the queue is empty at an interrupt, the run suspends durably and the
interrupt payload is surfaced to the caller.  `eval` gives the evaluation
LLM's outcome for each question index.  `fuel` bounds the number of loop
iterations (each iteration answers or errors out one step, so any fuel
beyond the question count is enough). -/

inductive RunResult where
  | suspended (s : SessionState) (payload : InterruptPayload)
  | finished (s : SessionState)
  | fuelOut (s : SessionState)
deriving DecidableEq

/-- The session state carried by a run result. -/
def RunResult.state : RunResult → SessionState
  | .suspended s _ => s
  | .finished s => s
  | .fuelOut s => s

def runTestLoop (eval : Nat → LLMOutcome) :
    List String → Nat → SessionState → RunResult
  | _, 0, s => .fuelOut s
  | answers, fuel + 1, s =>
    let s1 := present_question s
    match answer_interrupt_payload s1 with
    | none =>
      let s2 := answer_question_error s1
      if test_router s2 then runTestLoop eval answers fuel s2
      else .finished (finalize_test s2)
    | some payload =>
      match answers with
      | [] => .suspended s1 payload
      | a :: rest =>
        let s2 := answer_question_resume
          (eval s1.current_question_index) a s1
        if test_router s2 then runTestLoop eval rest fuel s2
        else .finished (finalize_test s2)

/-- A full test-session turn entered from the parent graph's
`generate_test` route: initialization followed by the question loop. -/
def runTestSession (generate : ToolArgs → List MultipleChoiceTest)
    (eval : Nat → LLMOutcome) (answers : List String) (fuel : Nat)
    (s : SessionState) : RunResult :=
  runTestLoop eval answers fuel (initialize_test generate s)

/-- The response shape of api.py's `chat` / `resume_chat`: the message
list, the `interrupted` flag, and `interrupt_info` when the run suspended
(`"__interrupt__" in respuesta`). -/
structure ChatResult where
  messages : List Msg
  interrupted : Bool
  interrupt_info : Option InterruptPayload
deriving Repr, DecidableEq

/-- api.py response construction from a run result. -/
def chatResultOf : RunResult → ChatResult
  | .suspended s p => ⟨s.messages, true, some p⟩
  | .finished s => ⟨s.messages, false, none⟩
  | .fuelOut s => ⟨s.messages, false, none⟩

/-! ## The test-session invariant (spec §3, §8 P2) -/

/-- The spec's test-session invariant:
`len(user_answers) == len(feedback_history) == len(scores) ==
current_question_index` and `current_question_index <= num_questions`. -/
def TestInv (s : SessionState) : Prop :=
  s.user_answers.length = s.current_question_index ∧
  s.feedback_history.length = s.current_question_index ∧
  s.scores.length = s.current_question_index ∧
  s.current_question_index ≤ s.num_questions

instance (s : SessionState) : Decidable (TestInv s) := by
  unfold TestInv; infer_instance

/-! ## Concrete fixtures (spec §8 scenario stubs)

Spec Scenario B/C/D: a session asking for a 3-question quiz about pipes,
with a generator stub producing 3 questions and an evaluator stub that
grades every answer correct. -/

/-- The `generate_test` tool-call arguments of the scenario:
`{topic: "pipes", num_questions: 3}`. -/
def quizArgs3 : ToolArgs :=
  { topic := "pipes", num_questions := some 3 }

/-- The assistant message whose tool call triggers the test session. -/
def triggerCall : ToolCall :=
  { name := "generate_test", id := "call1", args := quizArgs3 }

/-- The state at entry to the test subgraph: the user's quiz request plus
the reasoning node's `generate_test` tool call. -/
def startB : SessionState :=
  { messages :=
      [{ role := .human, content := "quiz me on 3 questions about pipes" },
       { role := .ai, content := "", tool_calls := [triggerCall] }] }

/-- Generator stub: the embedded `generate_test` tool on its
template-question fallback path, which yields exactly the requested
number of questions. -/
def genTemplate : ToolArgs → List MultipleChoiceTest := fun a =>
  generate_test_tool a.topic (a.num_questions.getD 5) a.difficulty
    .noJsonArray

/-- Generator stub: the embedded `generate_test` tool when the LLM
returns the empty JSON array `[]`, which yields an empty question
list. -/
def genEmptyParsed : ToolArgs → List MultipleChoiceTest := fun a =>
  generate_test_tool a.topic (a.num_questions.getD 5) a.difficulty
    (.parsed [])

/-- Evaluator stub: the model always answers in the rigid two-line format
grading the answer correct. -/
def evalYes : Nat → LLMOutcome := fun _ =>
  .response "CORRECT: YES\nFEEDBACK: ¡Bien!"

/-- Scenario B run: the quiz turn up to its first suspension (no resume
values supplied yet). -/
def runScenarioB : RunResult :=
  runTestSession genTemplate evalYes [] 10 startB

/-- Scenario D run: the quiz turn with all three answers supplied through
successive resumes. -/
def runScenarioD : RunResult :=
  runTestSession genTemplate evalYes ["a1", "a2", "a3"] 10 startB

/-- A corrupted/incomplete session state: two questions are promised but
the question list is empty. -/
def corruptState : SessionState :=
  { messages :=
      [{ role := .ai, content := "", tool_calls := [triggerCall] }],
    topic := "pipes",
    num_questions := 2,
    questions := [],
    current_question_index := 0 }

/-- A pending `get_guia` tool call that explicitly supplies
`asignatura = "fis"`, in a session whose subject is `"iv"`. -/
def guiaCexState : SessionState :=
  { messages :=
      [{ role := .ai, content := "",
         tool_calls :=
           [{ name := "get_guia", id := "g1",
              args := { asignatura := some "fis" } }] }],
    asignatura := some "iv" }

/-! ## Helper lemmas -/

lemma present_question_current_question_index (s : SessionState) :
    (present_question s).current_question_index =
      s.current_question_index := by
  unfold present_question; split <;> rfl

lemma present_question_questions (s : SessionState) :
    (present_question s).questions = s.questions := by
  unfold present_question; split <;> rfl

lemma present_question_num_questions (s : SessionState) :
    (present_question s).num_questions = s.num_questions := by
  unfold present_question; split <;> rfl

lemma present_question_user_answers (s : SessionState) :
    (present_question s).user_answers = s.user_answers := by
  unfold present_question; split <;> rfl

lemma present_question_feedback_history (s : SessionState) :
    (present_question s).feedback_history = s.feedback_history := by
  unfold present_question; split <;> rfl

lemma present_question_scores (s : SessionState) :
    (present_question s).scores = s.scores := by
  unfold present_question; split <;> rfl

lemma create_test_objects_length_le (qd : List QData) (n : Nat)
    (d : String) : (_create_test_objects qd n d).length ≤ n := by
  unfold _create_test_objects
  simp [List.length_take]

lemma create_test_objects_options (qd : List QData) (n : Nat) (d : String) :
    ∀ q ∈ _create_test_objects qd n d, q.options = [] := by
  unfold _create_test_objects
  intro q hq
  obtain ⟨x, _, rfl⟩ := List.mem_map.mp hq
  rfl

lemma present_question_of_oob (s : SessionState)
    (h : ¬ s.current_question_index < s.questions.length) :
    present_question s = s := by
  unfold present_question
  rw [dif_neg h]

lemma answer_interrupt_payload_of_oob (s : SessionState)
    (h : ¬ s.current_question_index < s.questions.length) :
    answer_interrupt_payload s = none := by
  unfold answer_interrupt_payload
  rw [dif_neg h]

lemma answer_interrupt_payload_spec (s : SessionState)
    (p : InterruptPayload) (h : answer_interrupt_payload s = some p) :
    ∃ q, s.questions.get? s.current_question_index = some q ∧
      p = { action := "answer_question",
            question_num := s.current_question_index + 1,
            total_questions := s.num_questions,
            question_text := questionText q } := by
  unfold answer_interrupt_payload at h
  split at h
  · next hlt =>
    refine ⟨s.questions.get ⟨s.current_question_index, hlt⟩,
      List.get?_eq_get hlt, ?_⟩
    injection h with h'
    exact h'.symm
  · exact absurd h (by simp)

lemma find?_append_of_forall_false {p : Msg → Bool} {l₁ l₂ : List Msg}
    (h : ∀ m ∈ l₁, p m = false) :
    (l₁ ++ l₂).find? p = l₂.find? p := by
  induction l₁ with
  | nil => rfl
  | cons a as ih =>
    have ha : ¬ p a = true := by simp [h a (by simp)]
    rw [List.cons_append, List.find?_cons_of_neg _ ha]
    exact ih fun m hm => h m (by simp [hm])

lemma lastToolCallId_spec (pre post : List Msg) (trig : Msg)
    (tc : ToolCall) (rest : List ToolCall)
    (htc : trig.tool_calls = tc :: rest)
    (hpost : ∀ m ∈ post, m.tool_calls = []) :
    lastToolCallId (pre ++ trig :: post) = tc.id := by
  unfold lastToolCallId
  rw [List.reverse_append, List.reverse_cons, List.append_assoc]
  rw [find?_append_of_forall_false
    (fun m hm => by simp [hpost m (List.mem_reverse.mp hm)])]
  rw [List.cons_append]
  have hp : (!trig.tool_calls.isEmpty) = true := by simp [htc]
  simp only [List.find?, hp]
  rw [htc]

/-! ## Claim theorems -/

/-- C2: the routing function is a pure function of the last message; for
every state whose last message carries at least one tool-call request it
returns the name declared by the first tool call in the list, and for
every state whose last message carries no tool call it returns the
terminal signal. -/
theorem C2_routing_function :
    (∀ msgs₁ msgs₂ : List Msg, msgs₁.getLast? = msgs₂.getLast? →
      should_continue msgs₁ = should_continue msgs₂) ∧
    (∀ (msgs : List Msg) (m : Msg) (tc : ToolCall) (rest : List ToolCall),
      msgs.getLast? = some m → m.tool_calls = tc :: rest →
      should_continue msgs = Route.tool tc.name) ∧
    (∀ (msgs : List Msg) (m : Msg),
      msgs.getLast? = some m → m.tool_calls = [] →
      should_continue msgs = Route.terminal) := by
  refine ⟨?_, ?_, ?_⟩
  · intro msgs₁ msgs₂ h
    unfold should_continue
    rw [h]
  · intro msgs m tc rest h₁ h₂
    unfold should_continue
    rw [h₁]
    dsimp only
    rw [h₂]
  · intro msgs m h₁ h₂
    unfold should_continue
    rw [h₁]
    dsimp only
    rw [h₂]

/-- Witness for C2 at concrete inputs: a last message requesting
`rag_search` routes to `rag_search`; a plain human message routes to the
terminal signal. -/
theorem C2_routing_function_witness :
    should_continue
        [{ role := Role.ai, content := "",
           tool_calls := [{ name := "rag_search", id := "r1" }] }] =
      Route.tool "rag_search" ∧
    should_continue [{ role := Role.human, content := "hola" }] =
      Route.terminal :=
  ⟨C2_routing_function.2.1 _ _ { name := "rag_search", id := "r1" } [] rfl
     rfl,
   C2_routing_function.2.2 _ _ rfl rfl⟩

/-- C5: for every tool in the registry and every exception raised inside
the tool's body, the invocation returns a normal result value — the
specified textual or structured error payload — so the exception is never
propagated (each embedded tool is a total function whose `error`
branches are exactly the source's `except` clauses). -/
theorem C5_tool_exceptions_contained :
    (∀ e : String,
      web_search_tool (Except.error e) =
        "Error performing web search: " ++ e) ∧
    (∀ (e a : String) (k : Option String),
      get_guia_tool (GuiaLookup.exc e) (some a) k =
        "Error retrieving guia: " ++ e) ∧
    (∀ q e : String,
      rag_search_tool q (RagOutcome.timeout e) =
          RagReturn.failure ("RAG service timeout: " ++ e) ∧
      rag_search_tool q (RagOutcome.connError e) =
          RagReturn.failure ("Cannot connect to RAG service: " ++ e) ∧
      rag_search_tool q (RagOutcome.reqError e) =
          RagReturn.failure ("Error contacting RAG service: " ++ e) ∧
      rag_search_tool q (RagOutcome.otherExc e) =
          RagReturn.failure ("Unexpected error: " ++ e)) ∧
    (∀ (topic : String) (nq : Nat) (diff : Option String),
      generate_test_tool topic nq diff GenOutcome.exc =
        [fallbackQuestion topic]) :=
  ⟨fun _ => rfl, fun _ _ _ => rfl, fun _ _ => ⟨rfl, rfl, rfl, rfl⟩,
   fun _ _ _ => rfl⟩

/-- C10: `generate_test` with `num_questions ≥ 1` returns at most
`num_questions` questions, each with an empty options list; on any
internal exception the result is exactly one fallback question about the
topic; and the question list stored by `initialize_test` can be strictly
shorter than the session's `num_questions` field (here: the LLM returned
the empty JSON array, 0 < 3). -/
theorem C10_generate_test_shape :
    (∀ (topic : String) (nq : Nat) (diff : Option String)
        (outcome : GenOutcome), 1 ≤ nq →
      (generate_test_tool topic nq diff outcome).length ≤ nq ∧
      (∀ q ∈ generate_test_tool topic nq diff outcome, q.options = []) ∧
      (outcome = GenOutcome.exc →
        generate_test_tool topic nq diff outcome =
          [fallbackQuestion topic])) ∧
    (initialize_test genEmptyParsed startB).questions.length <
      (initialize_test genEmptyParsed startB).num_questions := by
  constructor
  · intro topic nq diff outcome h1
    refine ⟨?_, ?_, ?_⟩
    · cases outcome with
      | exc => simpa [generate_test_tool] using h1
      | noJsonArray =>
        simp only [generate_test_tool]
        exact create_test_objects_length_le ..
      | parsed data =>
        simp only [generate_test_tool]
        exact create_test_objects_length_le ..
    · intro q hq
      cases outcome with
      | exc =>
        simp only [generate_test_tool, List.mem_singleton] at hq
        subst hq
        rfl
      | noJsonArray =>
        simp only [generate_test_tool] at hq
        exact create_test_objects_options _ _ _ q hq
      | parsed data =>
        simp only [generate_test_tool] at hq
        exact create_test_objects_options _ _ _ q hq
    · intro h
      subst h
      rfl
  · decide

/-- Witness for C10 at a concrete input: a 3-question request whose body
raises yields the single fallback question, within the bound. -/
theorem C10_generate_test_shape_witness :
    1 ≤ 3 ∧
    (generate_test_tool "pipes" 3 none GenOutcome.exc).length ≤ 3 :=
  ⟨by decide,
   (C10_generate_test_shape.1 "pipes" 3 none GenOutcome.exc (by decide)).1⟩

/-- C4 counterexample: an LLM response that does not parse into the
rigid two-line format — it contains neither a `CORRECT:` verdict nor a
`FEEDBACK:` marker — is NOT defaulted to `is_correct = True` with the
generic fallback: the evaluator returns the raw response text as
feedback together with `is_correct = False`. -/
theorem C4_counterexample :
    evaluate_answer_with_llm (LLMOutcome.response "no entiendo la pregunta")
        "mi respuesta" =
      ("no entiendo la pregunta", false) := by decide

/-- C4 (amended): failures are never propagated (the evaluator is total),
but the permissive fallback — `is_correct = True` with the generic
encouraging message — is returned only when the model call raises.  When
the call succeeds, `is_correct` holds exactly when the uppercased
response contains `"CORRECT: YES"` (so an unparseable response grades as
incorrect), and when no `"FEEDBACK:"` marker is present the feedback is
the raw response text. -/
theorem C4_amended_evaluator :
    (∀ ans : String,
      evaluate_answer_with_llm LLMOutcome.exc ans =
        ("Recibí tu respuesta: \x27" ++ ans ++ "\x27. ¡Continuemos!",
         true)) ∧
    (∀ t ans : String,
      (evaluate_answer_with_llm (LLMOutcome.response t) ans).2 =
        containsSub (upperS t) "CORRECT: YES") ∧
    (∀ t ans : String, containsSub t "FEEDBACK:" = false →
      (evaluate_answer_with_llm (LLMOutcome.response t) ans).1 = t) := by
  refine ⟨fun _ => rfl, fun _ _ => rfl, ?_⟩
  intro t ans h
  simp [evaluate_answer_with_llm, h]

/-- Witness for C4 (amended) at a concrete input: `"hola"` carries no
`FEEDBACK:` marker and is returned as feedback unchanged. -/
theorem C4_amended_evaluator_witness :
    containsSub "hola" "FEEDBACK:" = false ∧
    (evaluate_answer_with_llm (LLMOutcome.response "hola") "x").1 =
      "hola" :=
  ⟨by decide, C4_amended_evaluator.2.2 "hola" "x" (by decide)⟩

/-- C7 counterexample: a `get_guia` tool call that explicitly supplies
`asignatura = "fis"` is NOT passed to the tool unchanged — the node
overwrites it with the session's subject `"iv"`. -/
theorem C7_counterexample :
    (lastToolCalls guiaCexState).head?.map (fun tc => tc.args.asignatura) =
      some (some "fis") ∧
    (guiaInvokedArgs guiaCexState).map (fun a => a.asignatura) =
      some (some "iv") := by decide

/-- C7 (amended): the course-guide lookup node always overwrites the
tool call's `asignatura` argument with the session's subject — whether or
not the arguments supplied one explicitly — and the session's `subject`
field itself is never mutated by the node. -/
theorem C7_amended_get_guia :
    (∀ (s : SessionState) (tc : ToolCall) (rest : List ToolCall),
      lastToolCalls s = tc :: rest →
      guiaInvokedArgs s =
        some { tc.args with asignatura := s.asignatura } ∧
      ∀ invoke : ToolArgs → String,
        (get_guia_node invoke s).messages = s.messages ++
          [{ role := Role.tool,
             content := invoke { tc.args with asignatura := s.asignatura },
             tool_call_id := tc.id }]) ∧
    (∀ (invoke : ToolArgs → String) (s : SessionState),
      (get_guia_node invoke s).asignatura = s.asignatura) := by
  constructor
  · intro s tc rest h
    constructor
    · unfold guiaInvokedArgs
      rw [h]
    · intro invoke
      unfold get_guia_node
      rw [h]
  · intro invoke s
    unfold get_guia_node
    split <;> rfl

/-- Witness for C7 (amended) at the concrete state: the invoked
arguments carry the session's subject `"iv"`. -/
theorem C7_amended_get_guia_witness :
    guiaInvokedArgs guiaCexState = some { asignatura := some "iv" } :=
  (C7_amended_get_guia.1 guiaCexState
    { name := "get_guia", id := "g1",
      args := { asignatura := some "fis" } }
    [] (by decide)).1

/-- C1 counterexample: a reachable observation point violating the
invariant.  The turn asks for a 3-question quiz but the generator
returns an empty question list (the LLM produced the JSON array `[]`);
the defensive error branch of `answer_question` then sets
`current_question_index = num_questions = 3` while the accumulator lists
stay empty, so at the end of the `advance` turn
`len(user_answers) = 0 ≠ 3 = current_question_index`. -/
theorem C1_counterexample :
    ¬ TestInv (runTestSession genEmptyParsed evalYes [] 10 startB).state :=
  by decide

/-- C1 (amended): the invariant holds after initialization (triggered by
a pending tool call), and it is preserved by every answer-evaluation step
that actually evaluates a question — `current_question_index` within the
question list, with `len(questions) ≤ num_questions` as `generate_test`
ensures for nonzero requested counts.  On the defensive out-of-range
branch only `current_question_index ≤ num_questions` survives: the index
jumps to `num_questions` while the accumulator lists keep their lengths,
so the length equalities can fail there. -/
theorem C1_amended_test_invariant :
    (∀ (generate : ToolArgs → List MultipleChoiceTest) (s : SessionState)
        (tc : ToolCall) (rest : List ToolCall),
      lastToolCalls s = tc :: rest →
      TestInv (initialize_test generate s)) ∧
    (∀ (o : LLMOutcome) (a : String) (s : SessionState),
      TestInv s →
      s.current_question_index < s.questions.length →
      s.questions.length ≤ s.num_questions →
      TestInv (answer_question_resume o a (present_question s))) ∧
    (∀ s : SessionState,
      (answer_question_error s).current_question_index ≤
        (answer_question_error s).num_questions) := by
  refine ⟨?_, ?_, ?_⟩
  · intro generate s tc rest h
    unfold initialize_test
    rw [h]
    exact ⟨rfl, rfl, rfl, Nat.zero_le _⟩
  · intro o a s hinv hlt hle
    obtain ⟨h1, h2, h3, h4⟩ := hinv
    unfold TestInv answer_question_resume
    refine ⟨?_, ?_, ?_, ?_⟩ <;>
      simp only [present_question_user_answers,
        present_question_feedback_history, present_question_scores,
        present_question_current_question_index,
        present_question_num_questions, List.length_append,
        List.length_singleton]
    · omega
    · omega
    · omega
    · omega
  · intro s
    exact le_refl _

/-- Witness for C1 (amended) at concrete inputs: the scenario-B
initialization satisfies the invariant, and answering the first question
preserves it. -/
theorem C1_amended_test_invariant_witness :
    TestInv (initialize_test genTemplate startB) ∧
    TestInv (answer_question_resume (evalYes 0) "a1"
      (present_question (initialize_test genTemplate startB))) :=
  ⟨C1_amended_test_invariant.1 genTemplate startB triggerCall []
     (by decide),
   C1_amended_test_invariant.2.1 (evalYes 0) "a1"
     (initialize_test genTemplate startB) (by decide) (by decide)
     (by decide)⟩

/-- C9: the semantic-search node appends the metadata dictionary of each
returned result to the session's `context` accumulator in result order
(removing none: the old accumulator stays as a prefix), and
`call_agent` resets the accumulator to the empty list at the start of
each new `advance` turn. -/
theorem C9_rag_context_accumulator :
    (∀ (results : List RagResult) (s : SessionState) (tc : ToolCall)
        (rest : List ToolCall),
      lastToolCalls s = tc :: rest →
      (rag_search_node results s).context =
        s.context ++ results.map (fun r => r.metadata)) ∧
    (∀ (query : String) (asignatura : Option String)
        (prev : SessionState),
      (call_agent_seed query asignatura prev).context = []) := by
  constructor
  · intro results s tc rest h
    unfold rag_search_node
    rw [h]
  · intro query asignatura prev
    rfl

/-- Witness for C9 at a concrete input: one search result's metadata is
appended to an empty accumulator. -/
theorem C9_rag_context_accumulator_witness :
    (rag_search_node [{ content := "c1", metadata := [("tema", "pipes")] }]
        { messages :=
            [{ role := Role.ai, content := "",
               tool_calls := [{ name := "rag_search", id := "r1" }] }] }
      ).context = [[("tema", "pipes")]] :=
  C9_rag_context_accumulator.1
    [{ content := "c1", metadata := [("tema", "pipes")] }]
    { messages :=
        [{ role := Role.ai, content := "",
           tool_calls := [{ name := "rag_search", id := "r1" }] }] }
    { name := "rag_search", id := "r1" } [] (by decide)

/-- C8: from any test-session state whose index is out of bounds for the
question list (in particular when the list is empty), the sub-controller
does not raise (the embedded step functions are total): `answer_question`
takes its defensive branch, the router forces the transition to
`finalize`, and the run terminates as `finished` with a final summary
tool message. -/
theorem C8_corrupted_session_finalizes :
    ∀ (eval : Nat → LLMOutcome) (answers : List String) (fuel : Nat)
      (s : SessionState),
      ¬ s.current_question_index < s.questions.length →
      0 < fuel →
      runTestLoop eval answers fuel s =
        RunResult.finished (finalize_test (answer_question_error s)) ∧
      ((finalize_test (answer_question_error s)).messages.getLast?).map
          (fun m => m.role) = some Role.tool ∧
      ((finalize_test (answer_question_error s)).messages.getLast?).map
          (fun m => m.content) =
        some (summaryText (countTrue s.scores) s.num_questions s.topic) := by
  intro eval answers fuel s hoob hfuel
  refine ⟨?_, ?_, ?_⟩
  · cases fuel with
    | zero => omega
    | succ n =>
      simp only [runTestLoop, present_question_of_oob s hoob,
        answer_interrupt_payload_of_oob s hoob]
      rw [if_neg]
      unfold test_router answer_question_error
      simp
  · unfold finalize_test
    simp [List.getLast?_concat]
  · unfold finalize_test
    simp [List.getLast?_concat]
    rfl

/-- Witness for C8 at the concrete corrupted state (2 questions promised,
empty question list): the run finishes with the summary. -/
theorem C8_corrupted_session_finalizes_witness :
    ¬ (corruptState.current_question_index <
        corruptState.questions.length) ∧
    runTestLoop evalYes [] 5 corruptState =
      RunResult.finished (finalize_test (answer_question_error
        corruptState)) :=
  ⟨by decide,
   (C8_corrupted_session_finalizes evalYes [] 5 corruptState (by decide)
     (by decide)).1⟩

/-- C3: whenever the test sub-flow suspends to await an answer, the
interrupt payload is exactly `{action: "answer_question",
question_num: current_question_index + 1, total_questions: num_questions,
question_text: text of questions[current_question_index]}` (with the
index in range of the question list at the suspended state); and the
first suspension of the scenario-B session, whose generator produced 3
questions, reports `question_num = 1` and `total_questions = 3` with
`interrupted = True` in the API response. -/
theorem C3_interrupt_payload :
    (∀ (eval : Nat → LLMOutcome) (answers : List String) (fuel : Nat)
        (s s' : SessionState) (p : InterruptPayload),
      runTestLoop eval answers fuel s = RunResult.suspended s' p →
      ∃ q, s'.questions.get? s'.current_question_index = some q ∧
        p = { action := "answer_question",
              question_num := s'.current_question_index + 1,
              total_questions := s'.num_questions,
              question_text := questionText q }) ∧
    (chatResultOf runScenarioB).interrupted = true ∧
    (chatResultOf runScenarioB).interrupt_info =
      some { action := "answer_question", question_num := 1,
             total_questions := 3,
             question_text := "Pregunta 1 sobre pipes" } := by
  refine ⟨?_, by decide, by decide⟩
  intro eval answers fuel
  induction fuel generalizing answers with
  | zero =>
    intro s s' p h
    simp [runTestLoop] at h
  | succ n ih =>
    intro s s' p h
    simp only [runTestLoop] at h
    cases hpay : answer_interrupt_payload (present_question s) with
    | none =>
      simp only [hpay] at h
      split at h
      · exact ih _ _ _ _ h
      · simp at h
    | some payload =>
      simp only [hpay] at h
      cases answers with
      | nil =>
        cases h
        exact answer_interrupt_payload_spec _ _ hpay
      | cons a rest =>
        simp only at h
        split at h
        · exact ih _ _ _ _ h
        · simp at h

/-- Witness for C3 at the concrete scenario-B suspension: the suspended
payload's `question_num` equals the suspended state's index plus one. -/
theorem C3_interrupt_payload_witness :
    ({ action := "answer_question", question_num := 1,
       total_questions := 3,
       question_text := "Pregunta 1 sobre pipes" } :
      InterruptPayload).question_num =
      (present_question
        (initialize_test genTemplate startB)).current_question_index + 1
    := by
  obtain ⟨q, hq, hp⟩ := C3_interrupt_payload.1 evalYes [] 10
    (initialize_test genTemplate startB)
    (present_question (initialize_test genTemplate startB))
    { action := "answer_question", question_num := 1,
      total_questions := 3, question_text := "Pregunta 1 sobre pipes" }
    (by decide)
  rw [hp]

/-- C6: `finalize_test` computes the score as the number of `True`
entries in `scores` and the percentage as `100 * score / num_questions`
with the divide-by-zero guard returning 0 when `num_questions = 0`, and
emits exactly one summary message tagged with the tool-call identifier of
the original tool call that triggered initialization (the most recent
tool-calling message — the test subgraph itself appends none); in the
scenario-D 3-question all-correct session the final `resume` is not
interrupted and the summary contains `"3/3"` and carries the triggering
call's identifier. -/
theorem C6_finalize_summary :
    (∀ (s : SessionState) (pre post : List Msg) (trig : Msg)
        (tc : ToolCall) (rest : List ToolCall),
      s.messages = pre ++ trig :: post →
      trig.tool_calls = tc :: rest →
      (∀ m ∈ post, m.tool_calls = []) →
      (finalize_test s).messages = s.messages ++
        [{ role := Role.tool,
           content := summaryText (countTrue s.scores) s.num_questions
             s.topic,
           tool_call_id := tc.id }]) ∧
    (∀ score : Nat, percentageOf score 0 = 0) ∧
    (∀ score total : Nat, 0 < total →
      percentageOf score total = (100 * (score : ℚ)) / (total : ℚ)) ∧
    (chatResultOf runScenarioD).interrupted = false ∧
    ((runScenarioD.state.messages.getLast?).map
      (fun m => containsSub m.content "3/3")) = some true ∧
    ((runScenarioD.state.messages.getLast?).map fun m => m.tool_call_id) =
      some "call1" := by
  refine ⟨?_, ?_, ?_, by decide, by decide, by decide⟩
  · intro s pre post trig tc rest hmsgs htc hpost
    unfold finalize_test
    dsimp only
    rw [hmsgs, lastToolCallId_spec pre post trig tc rest htc hpost]
  · intro score
    simp [percentageOf]
  · intro score total ht
    unfold percentageOf
    rw [if_pos ht, div_mul_eq_mul_div, mul_comm]

/-- Witness for C6 at a concrete state: finalizing a 2-question session
with one correct answer appends exactly the tagged summary message. -/
theorem C6_finalize_summary_witness :
    (finalize_test
        { messages :=
            [{ role := Role.human, content := "quiz" },
             { role := Role.ai, content := "",
               tool_calls := [triggerCall] }],
          topic := "pipes", num_questions := 2,
          scores := [true, false] }).messages =
      [{ role := Role.human, content := "quiz" },
       { role := Role.ai, content := "", tool_calls := [triggerCall] }] ++
        [{ role := Role.tool,
           content := summaryText (countTrue [true, false]) 2 "pipes",
           tool_call_id := "call1" }] :=
  C6_finalize_summary.1 _ [{ role := Role.human, content := "quiz" }] []
    { role := Role.ai, content := "", tool_calls := [triggerCall] }
    triggerCall [] rfl rfl (by simp)

end Chatbot
